import Mathlib

/-!
# Verification of the financing-option calculator (`streamlit_app.py`)

Shallow embedding of the core of the repository: the fee table
(`FinanziariaData`), the row lookup (`get_commissioni`) and the
option calculator (`FinanceCalculator.calcola_opzioni`).

Modelling choices:
* Python floats are embedded as rationals (`ℚ`); the decimal literals of the
  fee table are exact decimals, so `ℚ` represents them exactly.
* The Python `int` installment count (`rate`) is embedded as `ℤ`.
* `pandas.DataFrame(self.data)` is embedded as the list `df` of rows, one per
  installment count; `self.df[self.df['Mesi'] == rate].iloc[0]`, which raises
  `IndexError` on an empty selection, is embedded as `Option` with `none` for
  the raising case.
* Python's `sorted(..., key=..., reverse=True)` is a stable sort, descending
  in the key; it is embedded as `List.insertionSort netGE` where
  `netGE a b := b.importo_netto ≤ a.importo_netto`: `orderedInsert` places the
  earlier element before later ones exactly when its key is `≥`, which is the
  stable descending behaviour of CPython's `sorted` with `reverse=True`.
-/

namespace Finanziarie

/-- The three lenders, in the fixed enumeration order of the loop at
line 38 of `streamlit_app.py`:
`['Sella Appago', 'Cofidis PagoDIL', 'Compass HeyLight']`. -/
inductive Finanziaria where
  | sellaAppago
  | cofidisPagoDIL
  | compassHeyLight
deriving DecidableEq, Repr

/-- Position of a lender in the enumeration order of the source loop. -/
def enumIdx : Finanziaria → ℕ
  | .sellaAppago => 0
  | .cofidisPagoDIL => 1
  | .compassHeyLight => 2

/-- One row of the fee table: the `Mesi` key and the commission percentage of
each of the three lenders (the `pd.Series` returned by `get_commissioni`). -/
structure Commissioni where
  mesi : ℤ
  sellaAppago : ℚ
  cofidisPagoDIL : ℚ
  compassHeyLight : ℚ
deriving DecidableEq, Repr

/-- Indexing a row by lender name, `commissioni[finanziaria]` in the source. -/
def Commissioni.get (c : Commissioni) : Finanziaria → ℚ
  | .sellaAppago => c.sellaAppago
  | .cofidisPagoDIL => c.cofidisPagoDIL
  | .compassHeyLight => c.compassHeyLight

/-- The `'Sella Appago'` column of `FinanziariaData.__init__` (lines 11-15). -/
def sellaAppagoCol : List ℚ := [
  0, 2.30, 2.30, 4.75, 5.05, 5.35, 5.75, 6.05, 6.45, 6.85, 7.15,
  7.35, 7.35, 7.60, 7.85, 8.26, 8.53, 8.95, 9.38, 9.82, 10.27,
  10.70, 11.14, 11.54]

/-- The `'Cofidis PagoDIL'` column of `FinanziariaData.__init__` (lines 16-20). -/
def cofidisPagoDILCol : List ℚ := [
  0, 0, 5.10, 5.50, 5.90, 6.10, 6.30, 6.40, 6.50, 6.60, 6.70,
  6.80, 6.95, 7.10, 7.25, 7.40, 7.55, 7.70, 7.85, 8.00, 8.15,
  8.30, 8.45, 8.60]

/-- The `'Compass HeyLight'` column of `FinanziariaData.__init__` (lines 21-25). -/
def compassHeyLightCol : List ℚ := [
  4.63, 5.00, 5.36, 5.72, 6.08, 6.32, 6.56, 6.80, 7.15, 7.39,
  7.62, 7.85, 8.09, 8.32, 8.55, 8.78, 9.01, 9.24, 9.59, 9.81,
  10.04, 10.27, 10.49, 10.72]

/-- `self.df = pd.DataFrame(self.data)` with `'Mesi': range(1, 25)`: the row
at index `i` has `Mesi = i + 1` and the `i`-th entry of each lender column. -/
def df : List Commissioni :=
  (List.range 24).map fun (i : ℕ) =>
    { mesi := (i : ℤ) + 1
      sellaAppago := sellaAppagoCol.getD i 0
      cofidisPagoDIL := cofidisPagoDILCol.getD i 0
      compassHeyLight := compassHeyLightCol.getD i 0 }

/-- `FinanziariaData.get_commissioni`:
`return self.df[self.df['Mesi'] == rate].iloc[0]`.
The boolean selection keeps the rows whose `Mesi` equals `rate`; `.iloc[0]`
returns the first of them and raises `IndexError` when there is none, embedded
here as `Option.none`. -/
def get_commissioni (rate : ℤ) : Option Commissioni :=
  (df.filter fun r => decide (r.mesi = rate)).head?

/-- One financing option as appended at lines 46-52 of the source. -/
structure Opzione where
  finanziaria : Finanziaria
  commissione_percentuale : ℚ
  costo_commissione : ℚ
  importo_netto : ℚ
  rata_mensile : ℚ
deriving DecidableEq, Repr

/-- The enumeration order of the loop at line 38. -/
def finanziarie : List Finanziaria :=
  [.sellaAppago, .cofidisPagoDIL, .compassHeyLight]

/-- The sort key relation of line 54:
`sorted(risultati, key=lambda x: x['importo_netto'], reverse=True)`. -/
def netGE (a b : Opzione) : Prop := b.importo_netto ≤ a.importo_netto

instance : DecidableRel netGE := fun a b =>
  inferInstanceAs (Decidable (b.importo_netto ≤ a.importo_netto))

instance : IsTotal Opzione netGE :=
  ⟨fun a b => le_total b.importo_netto a.importo_netto⟩

instance : IsTrans Opzione netGE :=
  ⟨fun _ _ _ hab hbc => le_trans hbc hab⟩

/-- The loop body, lines 42-52: the record appended for one lender. -/
def mkOpzione (importo : ℚ) (rate : ℤ) (commissioni : Commissioni)
    (finanziaria : Finanziaria) : Opzione :=
  let commissione := commissioni.get finanziaria / 100
  let costo_commissione := importo * commissione
  let importo_netto := importo - costo_commissione
  { finanziaria := finanziaria
    commissione_percentuale := commissioni.get finanziaria
    costo_commissione := costo_commissione
    importo_netto := importo_netto
    rata_mensile := importo / (rate : ℚ) }

/-- `FinanceCalculator.calcola_opzioni` (lines 35-54): skip a lender when its
commission is `0`, build one record per remaining lender in enumeration order,
and return the list sorted by `importo_netto` descending (stable). -/
def calcola_opzioni (importo : ℚ) (rate : ℤ) (commissioni : Commissioni) :
    List Opzione :=
  let risultati :=
    (finanziarie.filter fun finanziaria =>
        decide (commissioni.get finanziaria ≠ 0)).map
      (mkOpzione importo rate commissioni)
  risultati.insertionSort netGE

/-- Two-decimal display rounding, modelling the `f"€{x:.2f}"` formatting of
`render_results` (the core itself never rounds). -/
def round2 (q : ℚ) : ℚ := (round (q * 100) : ℚ) / 100

/-- Accessor equations for the record built by the loop body. -/
theorem mkOpzione_finanziaria (importo : ℚ) (rate : ℤ) (c : Commissioni)
    (f : Finanziaria) : (mkOpzione importo rate c f).finanziaria = f := rfl

theorem mkOpzione_commissione_percentuale (importo : ℚ) (rate : ℤ)
    (c : Commissioni) (f : Finanziaria) :
    (mkOpzione importo rate c f).commissione_percentuale = c.get f := rfl

theorem mkOpzione_costo_commissione (importo : ℚ) (rate : ℤ) (c : Commissioni)
    (f : Finanziaria) :
    (mkOpzione importo rate c f).costo_commissione =
      importo * (c.get f / 100) := rfl

theorem mkOpzione_importo_netto (importo : ℚ) (rate : ℤ) (c : Commissioni)
    (f : Finanziaria) :
    (mkOpzione importo rate c f).importo_netto =
      importo - importo * (c.get f / 100) := rfl

theorem mkOpzione_rata_mensile (importo : ℚ) (rate : ℤ) (c : Commissioni)
    (f : Finanziaria) :
    (mkOpzione importo rate c f).rata_mensile = importo / (rate : ℚ) := rfl

/-- The fee table, written out row by row: the transposition of the three
column lists of `FinanziariaData.__init__`, checked definitionally. -/
theorem df_eq : df = [
    ⟨1, 0, 0, 4.63⟩, ⟨2, 2.30, 0, 5.00⟩, ⟨3, 2.30, 5.10, 5.36⟩,
    ⟨4, 4.75, 5.50, 5.72⟩, ⟨5, 5.05, 5.90, 6.08⟩, ⟨6, 5.35, 6.10, 6.32⟩,
    ⟨7, 5.75, 6.30, 6.56⟩, ⟨8, 6.05, 6.40, 6.80⟩, ⟨9, 6.45, 6.50, 7.15⟩,
    ⟨10, 6.85, 6.60, 7.39⟩, ⟨11, 7.15, 6.70, 7.62⟩, ⟨12, 7.35, 6.80, 7.85⟩,
    ⟨13, 7.35, 6.95, 8.09⟩, ⟨14, 7.60, 7.10, 8.32⟩, ⟨15, 7.85, 7.25, 8.55⟩,
    ⟨16, 8.26, 7.40, 8.78⟩, ⟨17, 8.53, 7.55, 9.01⟩, ⟨18, 8.95, 7.70, 9.24⟩,
    ⟨19, 9.38, 7.85, 9.59⟩, ⟨20, 9.82, 8.00, 9.81⟩, ⟨21, 10.27, 8.15, 10.04⟩,
    ⟨22, 10.70, 8.30, 10.27⟩, ⟨23, 11.14, 8.45, 10.49⟩,
    ⟨24, 11.54, 8.60, 10.72⟩] := rfl

/-- The row that `get_commissioni` returns for 12 installments. -/
theorem get_commissioni_twelve :
    get_commissioni 12 = some ⟨12, 7.35, 6.80, 7.85⟩ := by
  norm_num [get_commissioni, df_eq]

/-- The row that `get_commissioni` returns for 1 installment. -/
theorem get_commissioni_one :
    get_commissioni 1 = some ⟨1, 0, 0, 4.63⟩ := by
  norm_num [get_commissioni, df_eq]

/-- Membership in the result of `calcola_opzioni`: exactly the lenders with a
nonzero commission, with the record built by the loop body. -/
theorem mem_calcola_opzioni {o : Opzione} {importo : ℚ} {rate : ℤ}
    {c : Commissioni} :
    o ∈ calcola_opzioni importo rate c ↔
      ∃ f, (f ∈ finanziarie ∧ c.get f ≠ 0) ∧ mkOpzione importo rate c f = o := by
  simp [calcola_opzioni, List.mem_filter]

/-- The sort does not change how many options are returned. -/
theorem length_calcola_opzioni (importo : ℚ) (rate : ℤ) (c : Commissioni) :
    (calcola_opzioni importo rate c).length =
      (finanziarie.filter fun f => decide (c.get f ≠ 0)).length := by
  simp [calcola_opzioni]

/-- Every row of the fee table carries a nonzero Compass HeyLight commission:
the third column of `FinanziariaData.__init__` has no `0` entry. -/
theorem compassHeyLight_ne_zero : ∀ r ∈ df, r.compassHeyLight ≠ 0 := by
  rw [df_eq]
  intro r hr
  fin_cases hr <;> norm_num

/-- A row produced by `get_commissioni` is a row of the table. -/
theorem mem_df_of_get_commissioni {rate : ℤ} {c : Commissioni}
    (h : get_commissioni rate = some c) : c ∈ df := by
  unfold get_commissioni at h
  have hc : c ∈ df.filter fun r => decide (r.mesi = rate) :=
    List.mem_of_mem_head? (Option.mem_def.mpr h)
  exact (List.mem_filter.mp hc).1

/-- Relative order that a stable descending sort must preserve on options with
equal net amounts: the enumeration order of the lender loop. -/
def stableTie (a b : Opzione) : Prop :=
  a.importo_netto = b.importo_netto →
    enumIdx a.finanziaria < enumIdx b.finanziaria

/-- Inserting an option that precedes (in enumeration order) every element of
an already `stableTie`-pairwise list keeps the list `stableTie`-pairwise:
`orderedInsert netGE` puts the new element before existing ones exactly when
its net amount is `≥`, so an element can only overtake strictly smaller nets. -/
theorem pairwise_stableTie_orderedInsert (x : Opzione) (l : List Opzione)
    (hx : ∀ y ∈ l, enumIdx x.finanziaria < enumIdx y.finanziaria)
    (hl : l.Pairwise stableTie) :
    (List.orderedInsert netGE x l).Pairwise stableTie := by
  induction l with
  | nil =>
    simp [List.orderedInsert]
  | cons y ys ih =>
    rw [List.orderedInsert]
    by_cases h : netGE x y
    · rw [if_pos h]
      refine List.pairwise_cons.mpr ⟨fun z hz _ => hx z hz, hl⟩
    · rw [if_neg h]
      rw [List.pairwise_cons] at hl
      refine List.pairwise_cons.mpr ⟨fun z hz => ?_, ?_⟩
      · rcases (List.mem_orderedInsert netGE).mp hz with hzx | hzy
        · subst hzx
          intro hnet
          exact absurd (le_of_eq hnet) h
        · exact hl.1 z hzy
      · exact ih (fun y hy => hx y (List.mem_cons_of_mem _ hy)) hl.2

/-- Stability of the embedded sort: sorting a list whose elements appear in
strictly increasing enumeration order yields a list in which equal net
amounts still appear in enumeration order. -/
theorem pairwise_stableTie_insertionSort (l : List Opzione)
    (hl : l.Pairwise fun a b =>
      enumIdx a.finanziaria < enumIdx b.finanziaria) :
    (l.insertionSort netGE).Pairwise stableTie := by
  induction l with
  | nil => simp [List.insertionSort]
  | cons a as ih =>
    rw [List.insertionSort]
    rw [List.pairwise_cons] at hl
    refine pairwise_stableTie_orderedInsert a _ (fun y hy => ?_) (ih hl.2)
    exact hl.1 y ((List.mem_insertionSort netGE).mp hy)

/-- Evaluation of the amount=1000, installments=12 scenario on the row the
table holds for 12 installments. -/
theorem calcola_scenario_twelve :
    calcola_opzioni 1000 12 ⟨12, 7.35, 6.80, 7.85⟩ =
      [⟨.cofidisPagoDIL, 6.80, 68, 932, 250/3⟩,
       ⟨.sellaAppago, 7.35, 73.5, 926.5, 250/3⟩,
       ⟨.compassHeyLight, 7.85, 78.5, 921.5, 250/3⟩] := by
  norm_num [calcola_opzioni, finanziarie, mkOpzione, Commissioni.get,
    List.filter_cons, List.filter_nil, List.insertionSort, List.orderedInsert,
    netGE]

/-- Evaluation of the amount=500, installments=1 scenario on the row the table
holds for 1 installment: only Compass HeyLight is offered. -/
theorem calcola_scenario_one :
    calcola_opzioni 500 1 ⟨1, 0, 0, 4.63⟩ =
      [⟨.compassHeyLight, 4.63, 23.15, 476.85, 500⟩] := by
  norm_num [calcola_opzioni, finanziarie, mkOpzione, Commissioni.get,
    List.filter_cons, List.filter_nil, List.insertionSort, List.orderedInsert,
    netGE]

/-- C1: for every positive amount, every installment count in [1,24] and the
corresponding fee row, the list returned by `calcola_opzioni` has
non-increasing `importo_netto` across consecutive elements. -/
theorem C1_result_sorted_desc (importo : ℚ) (rate : ℤ)
    (commissioni : Commissioni) (h0 : 0 < importo) (h1 : 1 ≤ rate)
    (h2 : rate ≤ 24) (hrow : get_commissioni rate = some commissioni) :
    List.Chain' (fun a b => b.importo_netto ≤ a.importo_netto)
      (calcola_opzioni importo rate commissioni) := by
  simp only [calcola_opzioni]
  exact List.Pairwise.chain'
    (List.sorted_insertionSort netGE
      ((finanziarie.filter fun f => decide (commissioni.get f ≠ 0)).map
        (mkOpzione importo rate commissioni)))

theorem C1_result_sorted_desc_witness :
    List.Chain' (fun a b => b.importo_netto ≤ a.importo_netto)
      (calcola_opzioni 1000 12 ⟨12, 7.35, 6.80, 7.85⟩) :=
  C1_result_sorted_desc 1000 12 ⟨12, 7.35, 6.80, 7.85⟩ (by decide) (by decide)
    (by decide) get_commissioni_twelve

/-- C2 counterexample: with amount = 0 (≤ 0), `calcola_opzioni` does not fail
in any way: it silently computes and returns the full option list (all zero
costs and nets), so no `InvalidAmountError` exists in the code. -/
theorem C2_counterexample_silent_compute :
    calcola_opzioni 0 12 ⟨12, 7.35, 6.80, 7.85⟩ =
      [⟨.sellaAppago, 7.35, 0, 0, 0⟩,
       ⟨.cofidisPagoDIL, 6.80, 0, 0, 0⟩,
       ⟨.compassHeyLight, 7.85, 0, 0, 0⟩] := by
  norm_num [calcola_opzioni, finanziarie, mkOpzione, Commissioni.get,
    List.filter_cons, List.filter_nil, List.insertionSort, List.orderedInsert,
    netGE]

/-- C2 amended: `calcola_opzioni` performs no validation of the amount: for
amount ≤ 0 it still returns one option per nonzero-commission lender, computed
with the usual formulas, instead of failing. -/
theorem C2_no_amount_validation (importo : ℚ) (rate : ℤ)
    (commissioni : Commissioni) (h : importo ≤ 0) :
    (calcola_opzioni importo rate commissioni).length =
      (finanziarie.filter fun f => decide (commissioni.get f ≠ 0)).length ∧
    ∀ o ∈ calcola_opzioni importo rate commissioni,
      o.importo_netto = importo - o.costo_commissione ∧
      o.costo_commissione = importo * (o.commissione_percentuale / 100) := by
  refine ⟨length_calcola_opzioni importo rate commissioni, fun o ho => ?_⟩
  obtain ⟨f, -, rfl⟩ := mem_calcola_opzioni.mp ho
  rw [mkOpzione_importo_netto, mkOpzione_costo_commissione,
    mkOpzione_commissione_percentuale]
  exact ⟨rfl, rfl⟩

theorem C2_no_amount_validation_witness :
    (calcola_opzioni 0 12 ⟨12, 7.35, 6.80, 7.85⟩).length =
      (finanziarie.filter fun f =>
        decide ((⟨12, 7.35, 6.80, 7.85⟩ : Commissioni).get f ≠ 0)).length ∧
    ∀ o ∈ calcola_opzioni 0 12 ⟨12, 7.35, 6.80, 7.85⟩,
      o.importo_netto = 0 - o.costo_commissione ∧
      o.costo_commissione = 0 * (o.commissione_percentuale / 100) :=
  C2_no_amount_validation 0 12 ⟨12, 7.35, 6.80, 7.85⟩ (by decide)

/-- C3 counterexample: on a row where all three lenders report 0 commission,
`calcola_opzioni` silently returns the empty list instead of failing with a
`NoOptionsAvailableError` (no such error exists in the code). -/
theorem C3_counterexample_silent_empty :
    calcola_opzioni 1000 12 ⟨12, 0, 0, 0⟩ = [] := by
  norm_num [calcola_opzioni, finanziarie, Commissioni.get,
    List.filter_cons, List.filter_nil, List.insertionSort]

/-- C3 amended: when all three lenders report 0 commission for the requested
installment count, `calcola_opzioni` returns the empty list (no error is
raised); callers see a silent empty result. -/
theorem C3_empty_when_all_zero (importo : ℚ) (rate : ℤ)
    (commissioni : Commissioni) (hs : commissioni.sellaAppago = 0)
    (hc : commissioni.cofidisPagoDIL = 0)
    (hh : commissioni.compassHeyLight = 0) :
    calcola_opzioni importo rate commissioni = [] := by
  norm_num [calcola_opzioni, finanziarie, Commissioni.get, hs, hc, hh,
    List.filter_cons, List.filter_nil, List.insertionSort]

theorem C3_empty_when_all_zero_witness :
    calcola_opzioni 500 6 ⟨6, 0, 0, 0⟩ = [] :=
  C3_empty_when_all_zero 500 6 ⟨6, 0, 0, 0⟩ rfl rfl rfl

/-- C4: the fee-table lookup returns no row (the `.iloc[0]` selection fails)
for every installment count outside [1,24]; nothing is clamped or defaulted. -/
theorem C4_lookup_none_outside_range (rate : ℤ)
    (h : rate < 1 ∨ 24 < rate) : get_commissioni rate = none := by
  unfold get_commissioni
  rw [List.head?_eq_none_iff, List.filter_eq_nil_iff]
  intro r hr
  simp only [decide_eq_true_eq]
  rw [df_eq] at hr
  fin_cases hr <;> simp <;> omega

theorem C4_lookup_none_outside_range_witness : get_commissioni 25 = none :=
  C4_lookup_none_outside_range 25 (Or.inr (by decide))

/-- C5: every option returned by `calcola_opzioni` satisfies
`importo_netto + costo_commissione = importo`, with
`costo_commissione = importo * commissione_percentuale / 100` and
`importo_netto = importo - costo_commissione`, exactly over `ℚ`. -/
theorem C5_net_plus_cost_eq_amount (importo : ℚ) (rate : ℤ)
    (commissioni : Commissioni) (h0 : 0 < importo) (h1 : 1 ≤ rate)
    (h2 : rate ≤ 24) (hrow : get_commissioni rate = some commissioni) :
    ∀ o ∈ calcola_opzioni importo rate commissioni,
      o.importo_netto + o.costo_commissione = importo ∧
      o.costo_commissione = importo * o.commissione_percentuale / 100 ∧
      o.importo_netto = importo - o.costo_commissione := by
  intro o ho
  obtain ⟨f, -, rfl⟩ := mem_calcola_opzioni.mp ho
  rw [mkOpzione_importo_netto, mkOpzione_costo_commissione,
    mkOpzione_commissione_percentuale]
  refine ⟨by ring, by ring, rfl⟩

theorem C5_net_plus_cost_eq_amount_witness :
    (⟨.cofidisPagoDIL, 6.80, 68, 932, 250/3⟩ : Opzione).importo_netto +
      (⟨.cofidisPagoDIL, 6.80, 68, 932, 250/3⟩ : Opzione).costo_commissione =
        1000 ∧
    (⟨.cofidisPagoDIL, 6.80, 68, 932, 250/3⟩ : Opzione).costo_commissione =
      1000 * (⟨.cofidisPagoDIL, 6.80, 68, 932,
        250/3⟩ : Opzione).commissione_percentuale / 100 ∧
    (⟨.cofidisPagoDIL, 6.80, 68, 932, 250/3⟩ : Opzione).importo_netto =
      1000 - (⟨.cofidisPagoDIL, 6.80, 68, 932,
        250/3⟩ : Opzione).costo_commissione :=
  C5_net_plus_cost_eq_amount 1000 12 ⟨12, 7.35, 6.80, 7.85⟩ (by decide)
    (by decide) (by decide) get_commissioni_twelve _
    (by rw [calcola_scenario_twelve]; exact List.mem_cons_self _ _)

/-- C6: a lender whose commission percentage in the row equals exactly 0 never
appears in the list returned by `calcola_opzioni`. -/
theorem C6_zero_commission_excluded (importo : ℚ) (rate : ℤ)
    (commissioni : Commissioni) (f : Finanziaria)
    (hf : commissioni.get f = 0) :
    ∀ o ∈ calcola_opzioni importo rate commissioni, o.finanziaria ≠ f := by
  intro o ho
  obtain ⟨g, ⟨-, hg⟩, rfl⟩ := mem_calcola_opzioni.mp ho
  rw [mkOpzione_finanziaria]
  rintro rfl
  exact hg hf

theorem C6_zero_commission_excluded_witness :
    (⟨.compassHeyLight, 4.63, 23.15, 476.85, 500⟩ : Opzione).finanziaria ≠
      Finanziaria.sellaAppago :=
  C6_zero_commission_excluded 500 1 ⟨1, 0, 0, 4.63⟩ Finanziaria.sellaAppago rfl
    _ (by rw [calcola_scenario_one]; exact List.mem_cons_self _ _)

/-- C7 counterexample: in the amount=1000, installments=12 scenario every
returned option has `rata_mensile = 1000 / 12 = 250/3`, which is not equal to
83.33: the spec's figure is the two-decimal display rounding, not the value
the calculator returns. -/
theorem C7_counterexample_rata :
    (calcola_opzioni 1000 12 ⟨12, 7.35, 6.80, 7.85⟩).map Opzione.rata_mensile =
      [250/3, 250/3, 250/3] ∧ ((250 : ℚ)/3) ≠ 83.33 := by
  rw [calcola_scenario_twelve]
  norm_num

/-- C7 amended: for amount=1000 and installments=12 the looked-up percentages
are Sella Appago 7.35, Cofidis PagoDIL 6.80, Compass HeyLight 7.85, and the
ranked result is Cofidis PagoDIL (net 932), Sella Appago (net 926.50),
Compass HeyLight (net 921.50); each option's `rata_mensile` is
1000/12 = 250/3, which displays as 83.33 after two-decimal rounding. -/
theorem C7_scenario_amended :
    get_commissioni 12 = some ⟨12, 7.35, 6.80, 7.85⟩ ∧
    calcola_opzioni 1000 12 ⟨12, 7.35, 6.80, 7.85⟩ =
      [⟨.cofidisPagoDIL, 6.80, 68, 932, 250/3⟩,
       ⟨.sellaAppago, 7.35, 73.5, 926.5, 250/3⟩,
       ⟨.compassHeyLight, 7.85, 78.5, 921.5, 250/3⟩] ∧
    round2 ((250 : ℚ)/3) = 83.33 := by
  refine ⟨get_commissioni_twelve, calcola_scenario_twelve, ?_⟩
  have h : ((250 : ℚ)/3 * 100) = 25000/3 := by norm_num
  have hr : round ((250 : ℚ)/3 * 100) = 8333 := by
    rw [h, round_eq, Int.floor_eq_iff] <;> norm_num
  rw [round2, hr]
  norm_num

/-- C8: the fee table has exactly 24 rows, keyed by the integers 1..24, and
every commission percentage in it is non-negative. (Each row having exactly
the three lender fields, and the absence of mutation, are structural in the
embedding: `Commissioni` has exactly those fields and `df` is a constant.) -/
theorem C8_table_invariant :
    df.length = 24 ∧
    df.map Commissioni.mesi = (List.range 24).map (fun i => (i : ℤ) + 1) ∧
    ∀ r ∈ df, 0 ≤ r.sellaAppago ∧ 0 ≤ r.cofidisPagoDIL ∧
      0 ≤ r.compassHeyLight := by
  refine ⟨rfl, rfl, ?_⟩
  rw [df_eq]
  intro r hr
  fin_cases hr <;> norm_num

/-- C9: for validated input (positive amount, installment count in [1,24] and
the row looked up for it), the result of `calcola_opzioni` is never empty,
because Compass HeyLight's commission is nonzero in every row of the table:
the all-lenders-excluded condition is unreachable. -/
theorem C9_result_nonempty (importo : ℚ) (rate : ℤ)
    (commissioni : Commissioni) (h0 : 0 < importo) (h1 : 1 ≤ rate)
    (h2 : rate ≤ 24) (hrow : get_commissioni rate = some commissioni) :
    calcola_opzioni importo rate commissioni ≠ [] := by
  have hcomp : commissioni.compassHeyLight ≠ 0 :=
    compassHeyLight_ne_zero commissioni (mem_df_of_get_commissioni hrow)
  intro hnil
  have hlen := length_calcola_opzioni importo rate commissioni
  rw [hnil] at hlen
  have hmem : Finanziaria.compassHeyLight ∈
      finanziarie.filter fun f => decide (commissioni.get f ≠ 0) := by
    rw [List.mem_filter]
    exact ⟨by decide, by simpa [Commissioni.get] using hcomp⟩
  have hne : (finanziarie.filter fun f =>
      decide (commissioni.get f ≠ 0)) ≠ [] := List.ne_nil_of_mem hmem
  exact hne (List.length_eq_zero.mp hlen.symm)

theorem C9_result_nonempty_witness :
    calcola_opzioni 500 1 ⟨1, 0, 0, 4.63⟩ ≠ [] :=
  C9_result_nonempty 500 1 ⟨1, 0, 0, 4.63⟩ (by decide) (by decide) (by decide)
    get_commissioni_one

/-- C10: the stable-sort tie-break of `calcola_opzioni`: whenever two returned
options have equal `importo_netto`, they appear in the fixed enumeration order
Sella Appago, Cofidis PagoDIL, Compass HeyLight of the lender loop (the
embedding is a pure function of its inputs, so two runs on the same inputs
return the same list definitionally). -/
theorem C10_stable_tiebreak (importo : ℚ) (rate : ℤ)
    (commissioni : Commissioni) :
    (calcola_opzioni importo rate commissioni).Pairwise
      (fun a b => a.importo_netto = b.importo_netto →
        enumIdx a.finanziaria < enumIdx b.finanziaria) := by
  show (calcola_opzioni importo rate commissioni).Pairwise stableTie
  simp only [calcola_opzioni]
  apply pairwise_stableTie_insertionSort
  rw [List.pairwise_map]
  have hfin : (finanziarie.filter fun f =>
      decide (commissioni.get f ≠ 0)).Pairwise
        (fun a b => enumIdx a < enumIdx b) :=
    List.Pairwise.filter _ (by decide)
  exact hfin.imp fun h => by
    rw [mkOpzione_finanziaria, mkOpzione_finanziaria]
    exact h

end Finanziarie
